import Mathlib

/-!
Shallow embedding of the missing-records reconciliation service.

The data model (`Batch`, `Record`), the service layer (`BatchService` /
`RecordService` in `app/services.py`) and the HTTP endpoint layer
(`app/api/endpoints.py`) are translated into pure Lean definitions.
The persistence store is modelled as an explicit `DB` value holding the
stored rows; SQLAlchemy queries become list filters over those rows,
Python `set(...)` becomes `List.toFinset`, Python `sorted(...)` on a set
becomes `Finset.sort (· ≤ ·)` and on a list becomes `List.insertionSort`.
Python floats are modelled by exact rationals; `round(x, 2)` becomes
`round2`. Exceptions become `Except`: the service raises
`SvcError.valueError` where the source raises `ValueError`, and the
endpoint layer maps it to `ApiError.notFound` (HTTP 404) exactly as the
`except ValueError` handlers do, with `ApiError.serverError` standing for
the 500 catch-all branch and `ApiError.badRequest` for the 400 branch.
Mutating operations return the new `DB` paired with their outcome.
-/

/-- Enum for record processing status (`RecordStatus` in `app/models.py`). -/
inductive RecordStatus where
  | expected
  | processed
deriving DecidableEq, Repr

/-- Enum for different types of records being tracked (`RecordType` in `app/models.py`). -/
inductive RecordType where
  | order
  | transaction
  | file
  | shipment
  | payment
deriving DecidableEq, Repr

/-- A stored batch row (`Batch` in `app/models.py`; timestamps omitted,
they play no role in any operation modelled here). -/
structure Batch where
  id : ℤ
  batch_name : String
  record_type : RecordType
  description : Option String
deriving DecidableEq, Repr

/-- A stored record row (`Record` in `app/models.py`; timestamps omitted). -/
structure Record where
  id : ℤ
  record_id : ℤ
  batch_id : ℤ
  status : RecordStatus
  record_metadata : Option String
deriving DecidableEq, Repr

/-- The persistence store: the rows of the `batches` and `records` tables,
in storage iteration order. -/
structure DB where
  batches : List Batch
  records : List Record
deriving DecidableEq, Repr

/-- Payload of `BatchCreate` in `app/schemas.py`. -/
structure BatchCreate where
  batch_name : String
  record_type : RecordType
  description : Option String
deriving DecidableEq, Repr

/-- Payload of `RecordCreate` in `app/schemas.py`. -/
structure RecordCreate where
  record_id : ℤ
  status : RecordStatus
  record_metadata : Option String
deriving DecidableEq, Repr

/-- Payload of `RecordBulkUpload` in `app/schemas.py`. -/
structure RecordBulkUpload where
  batch_id : ℤ
  records : List RecordCreate
deriving DecidableEq, Repr

/-- Result shape of `MissingRecordsResult` in `app/schemas.py`. -/
structure MissingRecordsResult where
  batch_id : ℤ
  batch_name : String
  total_expected : ℕ
  total_processed : ℕ
  missing_count : ℕ
  missing_records : List ℤ
  processing_rate : ℚ
  unexpected_count : ℕ
  unexpected_records : List ℤ
deriving DecidableEq, Repr

/-- Result shape of `ProcessingStatusResult` in `app/schemas.py`. -/
structure ProcessingStatusResult where
  batch_id : ℤ
  batch_name : String
  record_type : RecordType
  expected_records : List ℤ
  processed_records : List ℤ
  expected_count : ℕ
  processed_count : ℕ
deriving DecidableEq, Repr

/-- Result shape of `BatchStatistics` in `app/schemas.py`. -/
structure BatchStatistics where
  batch_id : ℤ
  batch_name : String
  total_records : ℕ
  expected_count : ℕ
  processed_count : ℕ
  missing_count : ℕ
  processing_rate : ℚ
deriving DecidableEq, Repr

/-- The `ValueError` raised by the analysis services when the batch id does
not reference an existing batch; it carries the offending id. -/
inductive SvcError where
  | valueError (batch_id : ℤ)
deriving DecidableEq, Repr

/-- The HTTP-level error taxonomy of `app/api/endpoints.py`:
404 not-found, 400 bad-request/conflict, 500 internal. -/
inductive ApiError where
  | notFound (batch_id : ℤ)
  | badRequest (detail : String)
  | serverError (detail : String)
deriving DecidableEq, Repr

/-- `db.query(Batch).filter(Batch.id == batch_id).first()`
(`BatchService.get_batch_by_id`). -/
def getBatchById (db : DB) (batch_id : ℤ) : Option Batch :=
  db.batches.find? (fun b => decide (b.id = batch_id))

/-- `db.query(Batch).filter(Batch.batch_name == batch_name).first()`
(`BatchService.get_batch_by_name`). -/
def getBatchByName (db : DB) (batch_name : String) : Option Batch :=
  db.batches.find? (fun b => decide (b.batch_name = batch_name))

/-- The `record_id` column of the rows returned by
`db.query(Record.record_id).filter(Record.batch_id == batch_id,
Record.status == RecordStatus.EXPECTED).all()`, in storage order. -/
def expectedIdRows (db : DB) (batch_id : ℤ) : List ℤ :=
  (db.records.filter
    (fun r => decide (r.batch_id = batch_id ∧ r.status = RecordStatus.expected))).map
      Record.record_id

/-- As `expectedIdRows`, for `RecordStatus.PROCESSED`. -/
def processedIdRows (db : DB) (batch_id : ℤ) : List ℤ :=
  (db.records.filter
    (fun r => decide (r.batch_id = batch_id ∧ r.status = RecordStatus.processed))).map
      Record.record_id

/-- `expected_ids = set([r.record_id for r in expected_records])`. -/
def expectedIds (db : DB) (batch_id : ℤ) : Finset ℤ :=
  (expectedIdRows db batch_id).toFinset

/-- `processed_ids = set([r.record_id for r in processed_records])`. -/
def processedIds (db : DB) (batch_id : ℤ) : Finset ℤ :=
  (processedIdRows db batch_id).toFinset

/-- Python `round(x, 2)` on the exact rational value of `x`. -/
def round2 (q : ℚ) : ℚ :=
  (round (q * 100) : ℚ) / 100

/-- `RecordService.find_missing_records` (`app/services.py`), with the
database state threaded through explicitly: the function only queries, so
the state it returns is the state it was given. -/
def findMissingRecords (db : DB) (batch_id : ℤ) :
    DB × Except SvcError MissingRecordsResult :=
  match getBatchById db batch_id with
  | none => (db, .error (.valueError batch_id))
  | some batch =>
    let expected_ids := expectedIds db batch_id
    let processed_ids := processedIds db batch_id
    let missing := expected_ids \ processed_ids
    let unexpected := processed_ids \ expected_ids
    let total_expected := expected_ids.card
    let total_processed := processed_ids.card
    let processing_rate : ℚ :=
      if 0 < total_expected then
        (((expected_ids ∩ processed_ids).card : ℚ) / (total_expected : ℚ)) * 100
      else 0
    (db, .ok
      { batch_id := batch_id
        batch_name := batch.batch_name
        total_expected := total_expected
        total_processed := total_processed
        missing_count := missing.card
        missing_records := missing.sort (· ≤ ·)
        processing_rate := round2 processing_rate
        unexpected_count := unexpected.card
        unexpected_records := unexpected.sort (· ≤ ·) })

/-- `RecordService.get_processing_status` (`app/services.py`). -/
def getProcessingStatus (db : DB) (batch_id : ℤ) :
    Except SvcError ProcessingStatusResult :=
  match getBatchById db batch_id with
  | none => .error (.valueError batch_id)
  | some batch =>
    let expected_ids := expectedIdRows db batch_id
    let processed_ids := processedIdRows db batch_id
    .ok
      { batch_id := batch_id
        batch_name := batch.batch_name
        record_type := batch.record_type
        expected_records := expected_ids.insertionSort (· ≤ ·)
        processed_records := processed_ids.insertionSort (· ≤ ·)
        expected_count := expected_ids.length
        processed_count := processed_ids.length }

/-- `RecordService.get_batch_statistics` (`app/services.py`): row counts
(`func.count`) for `total_records`, `expected_count`, `processed_count`;
deduplicated sets for `missing_count` and `processing_rate`. -/
def getBatchStatistics (db : DB) (batch_id : ℤ) :
    Except SvcError BatchStatistics :=
  match getBatchById db batch_id with
  | none => .error (.valueError batch_id)
  | some batch =>
    let total_records :=
      (db.records.filter (fun r => decide (r.batch_id = batch_id))).length
    let expected_count :=
      (db.records.filter
        (fun r => decide (r.batch_id = batch_id ∧ r.status = RecordStatus.expected))).length
    let processed_count :=
      (db.records.filter
        (fun r => decide (r.batch_id = batch_id ∧ r.status = RecordStatus.processed))).length
    let expected_ids := expectedIds db batch_id
    let processed_ids := processedIds db batch_id
    let missing_count := (expected_ids \ processed_ids).card
    let processing_rate : ℚ :=
      if 0 < expected_ids.card then
        (((expected_ids ∩ processed_ids).card : ℚ) / (expected_ids.card : ℚ)) * 100
      else 0
    .ok
      { batch_id := batch_id
        batch_name := batch.batch_name
        total_records := total_records
        expected_count := expected_count
        processed_count := processed_count
        missing_count := missing_count
        processing_rate := round2 processing_rate }

/-- `RecordService.clear_all_records`: bulk-delete of all records for a
batch, returning the number of deleted rows. -/
def clearAllRecords (db : DB) (batch_id : ℤ) : DB × ℕ :=
  let deleted := db.records.filter (fun r => decide (r.batch_id = batch_id))
  ({ db with records := db.records.filter (fun r => decide (¬ r.batch_id = batch_id)) },
   deleted.length)

/-- New primary key assigned by the store to a fresh batch row
(autoincrement). -/
def nextBatchId (db : DB) : ℤ :=
  (db.batches.map Batch.id).foldr max 0 + 1

/-- New primary key assigned by the store to a fresh record row
(autoincrement). -/
def nextRecordId (db : DB) : ℤ :=
  (db.records.map Record.id).foldr max 0 + 1

/-- `BatchService.create_batch`: insert and return the new batch row. -/
def createBatch (db : DB) (batch_data : BatchCreate) : DB × Batch :=
  let batch : Batch :=
    { id := nextBatchId db
      batch_name := batch_data.batch_name
      record_type := batch_data.record_type
      description := batch_data.description }
  ({ db with batches := db.batches ++ [batch] }, batch)

/-- `BatchService.delete_batch`: if the batch exists, remove it together
with all of its records (the `cascade="all, delete-orphan"` relationship
of `Batch.records` in `app/models.py`) and report `true`; otherwise leave
the store unchanged and report `false`. -/
def deleteBatch (db : DB) (batch_id : ℤ) : DB × Bool :=
  match getBatchById db batch_id with
  | some _ =>
    ({ batches := db.batches.filter (fun b => decide (¬ b.id = batch_id))
       records := db.records.filter (fun r => decide (¬ r.batch_id = batch_id)) },
     true)
  | none => (db, false)

/-- `RecordService.create_record`: insert and return the new record row. -/
def createRecord (db : DB) (batch_id : ℤ) (record_data : RecordCreate) :
    DB × Record :=
  let record : Record :=
    { id := nextRecordId db
      record_id := record_data.record_id
      batch_id := batch_id
      status := record_data.status
      record_metadata := record_data.record_metadata }
  ({ db with records := db.records ++ [record] }, record)

/-- `RecordService.bulk_create_records`: insert one row per payload item. -/
def bulkCreateRecords (db : DB) (batch_id : ℤ) (records_data : List RecordCreate) :
    DB × List Record :=
  match records_data with
  | [] => (db, [])
  | record_data :: rest =>
    let (db', record) := createRecord db batch_id record_data
    let (db'', records) := bulkCreateRecords db' batch_id rest
    (db'', record :: records)

/-- `RecordService.get_records_by_batch`. -/
def getRecordsByBatch (db : DB) (batch_id : ℤ) : List Record :=
  db.records.filter (fun r => decide (r.batch_id = batch_id))

/-- `RecordService.get_records_by_status`. -/
def getRecordsByStatus (db : DB) (batch_id : ℤ) (status : RecordStatus) :
    List Record :=
  db.records.filter (fun r => decide (r.batch_id = batch_id ∧ r.status = status))

/-- `POST /batches` (`create_batch` in `app/api/endpoints.py`): reject a
duplicate batch name with a 400 before creating anything. -/
def createBatchEndpoint (db : DB) (batch : BatchCreate) :
    DB × Except ApiError Batch :=
  match getBatchByName db batch.batch_name with
  | some _ =>
    (db, .error (.badRequest ("Batch with name " ++ batch.batch_name ++ " already exists")))
  | none =>
    let (db', new_batch) := createBatch db batch
    (db', .ok new_batch)

/-- `GET /batches/{batch_id}` (`get_batch`): 404 when absent. -/
def getBatchEndpoint (db : DB) (batch_id : ℤ) : Except ApiError Batch :=
  match getBatchById db batch_id with
  | some batch => .ok batch
  | none => .error (.notFound batch_id)

/-- `DELETE /batches/{batch_id}` (`delete_batch`): 404 when the service
reports nothing was deleted. -/
def deleteBatchEndpoint (db : DB) (batch_id : ℤ) : DB × Except ApiError String :=
  let (db', deleted) := deleteBatch db batch_id
  if deleted then (db', .ok ("Successfully deleted batch " ++ toString batch_id))
  else (db', .error (.notFound batch_id))

/-- `POST /records` (`create_record`): verify the batch exists first,
404 otherwise. -/
def createRecordEndpoint (db : DB) (batch_id : ℤ) (record : RecordCreate) :
    DB × Except ApiError Record :=
  match getBatchById db batch_id with
  | none => (db, .error (.notFound batch_id))
  | some _ =>
    let (db', new_record) := createRecord db batch_id record
    (db', .ok new_record)

/-- `POST /records/bulk` (`bulk_upload_records`): verify the batch exists
first, 404 otherwise; on success report the number of uploaded rows. -/
def bulkUploadRecordsEndpoint (db : DB) (bulk_data : RecordBulkUpload) :
    DB × Except ApiError ℕ :=
  match getBatchById db bulk_data.batch_id with
  | none => (db, .error (.notFound bulk_data.batch_id))
  | some _ =>
    let (db', records) := bulkCreateRecords db bulk_data.batch_id bulk_data.records
    (db', .ok records.length)

/-- `GET /records/batch/{batch_id}` (`get_records_by_batch`): verify the
batch exists first, 404 otherwise. -/
def getRecordsByBatchEndpoint (db : DB) (batch_id : ℤ) :
    Except ApiError (List Record) :=
  match getBatchById db batch_id with
  | none => .error (.notFound batch_id)
  | some _ => .ok (getRecordsByBatch db batch_id)

/-- `GET /records/batch/{batch_id}/status/{status}` (`get_records_by_status`):
verify the batch exists first, 404 otherwise. -/
def getRecordsByStatusEndpoint (db : DB) (batch_id : ℤ) (status : RecordStatus) :
    Except ApiError (List Record) :=
  match getBatchById db batch_id with
  | none => .error (.notFound batch_id)
  | some _ => .ok (getRecordsByStatus db batch_id status)

/-- `DELETE /records/batch/{batch_id}` (`clear_batch_records`): verify the
batch exists first, 404 otherwise. -/
def clearBatchRecordsEndpoint (db : DB) (batch_id : ℤ) : DB × Except ApiError ℕ :=
  match getBatchById db batch_id with
  | none => (db, .error (.notFound batch_id))
  | some _ =>
    let (db', count) := clearAllRecords db batch_id
    (db', .ok count)

/-- `GET /analysis/missing/{batch_id}` (`analyze_missing_records`): the
service `ValueError` becomes a 404; any other failure would become a 500
(that branch is unreachable in the pure model). -/
def analyzeMissingRecordsEndpoint (db : DB) (batch_id : ℤ) :
    DB × Except ApiError MissingRecordsResult :=
  match findMissingRecords db batch_id with
  | (db', .ok result) => (db', .ok result)
  | (db', .error (.valueError b)) => (db', .error (.notFound b))

/-- `GET /analysis/status/{batch_id}` (`get_processing_status`): the
service `ValueError` becomes a 404. -/
def getProcessingStatusEndpoint (db : DB) (batch_id : ℤ) :
    Except ApiError ProcessingStatusResult :=
  match getProcessingStatus db batch_id with
  | .ok result => .ok result
  | .error (.valueError b) => .error (.notFound b)

/-- `GET /analysis/statistics/{batch_id}` (`get_batch_statistics`): the
service `ValueError` becomes a 404. -/
def getBatchStatisticsEndpoint (db : DB) (batch_id : ℤ) :
    Except ApiError BatchStatistics :=
  match getBatchStatistics db batch_id with
  | .ok result => .ok result
  | .error (.valueError b) => .error (.notFound b)

/-- A concrete batch used to instantiate the theorems below. -/
def exBatch : Batch :=
  { id := 1, batch_name := "alpha", record_type := RecordType.order, description := none }

/-- A concrete store with one batch and five record rows; record ids 10
and 20 are expected (10 twice, a duplicate row), 10 and 30 are processed. -/
def exDB : DB :=
  { batches := [exBatch]
    records :=
      [ { id := 1, record_id := 10, batch_id := 1, status := RecordStatus.expected,
          record_metadata := none }
      , { id := 2, record_id := 10, batch_id := 1, status := RecordStatus.expected,
          record_metadata := none }
      , { id := 3, record_id := 20, batch_id := 1, status := RecordStatus.expected,
          record_metadata := none }
      , { id := 4, record_id := 10, batch_id := 1, status := RecordStatus.processed,
          record_metadata := none }
      , { id := 5, record_id := 30, batch_id := 1, status := RecordStatus.processed,
          record_metadata := none } ] }

/-- A batch row that is a duplicate of record row 1 of `exDB` up to the
primary key: same domain `record_id`, batch and status. -/
def exDupRecord : Record :=
  { id := 99, record_id := 10, batch_id := 1, status := RecordStatus.expected,
    record_metadata := none }

lemma toFinset_congr_of_perm {l l' : List ℤ} (h : l.Perm l') :
    l.toFinset = l'.toFinset :=
  Finset.ext fun a => by simp only [List.mem_toFinset, h.mem_iff]

lemma expectedIds_congr_perm {db db' : DB} (batch_id : ℤ)
    (h : db.records.Perm db'.records) :
    expectedIds db batch_id = expectedIds db' batch_id := by
  unfold expectedIds expectedIdRows
  exact toFinset_congr_of_perm ((h.filter _).map _)

lemma processedIds_congr_perm {db db' : DB} (batch_id : ℤ)
    (h : db.records.Perm db'.records) :
    processedIds db batch_id = processedIds db' batch_id := by
  unfold processedIds processedIdRows
  exact toFinset_congr_of_perm ((h.filter _).map _)

lemma getBatchById_congr_batches {db db' : DB} (batch_id : ℤ)
    (h : db.batches = db'.batches) :
    getBatchById db batch_id = getBatchById db' batch_id := by
  unfold getBatchById
  rw [h]

lemma findMissingRecords_snd_congr {db db' : DB} (batch_id : ℤ)
    (hb : db.batches = db'.batches) (hr : db.records.Perm db'.records) :
    (findMissingRecords db batch_id).2 = (findMissingRecords db' batch_id).2 := by
  have hg : getBatchById db' batch_id = getBatchById db batch_id :=
    (getBatchById_congr_batches batch_id hb).symm
  have hE : expectedIds db' batch_id = expectedIds db batch_id :=
    (expectedIds_congr_perm batch_id hr).symm
  have hP : processedIds db' batch_id = processedIds db batch_id :=
    (processedIds_congr_perm batch_id hr).symm
  cases hcase : getBatchById db batch_id <;>
    simp only [findMissingRecords, hg, hE, hP, hcase]

/-- C1: for every existing batch, `find_missing_records` returns
`missing_records` as the ascending-sorted (strictly, hence duplicate-free)
enumeration of `expected_ids − processed_ids` and `unexpected_records` as
that of `processed_ids − expected_ids`; the returned result is invariant
under permuting the stored record rows, so the output order does not
depend on storage iteration order. -/
theorem find_missing_records_sorted_set_difference (db : DB) (batch_id : ℤ)
    (b : Batch) (hb : getBatchById db batch_id = some b) :
    (∃ res, (findMissingRecords db batch_id).2 = .ok res ∧
      List.Sorted (· < ·) res.missing_records ∧
      (∀ x : ℤ, x ∈ res.missing_records ↔
        x ∈ expectedIds db batch_id ∧ x ∉ processedIds db batch_id) ∧
      List.Sorted (· < ·) res.unexpected_records ∧
      (∀ x : ℤ, x ∈ res.unexpected_records ↔
        x ∈ processedIds db batch_id ∧ x ∉ expectedIds db batch_id)) ∧
    (∀ db' : DB, db.batches = db'.batches → db.records.Perm db'.records →
      (findMissingRecords db batch_id).2 = (findMissingRecords db' batch_id).2) := by
  constructor
  · simp only [findMissingRecords, hb]
    refine ⟨_, rfl, ?_, ?_, ?_, ?_⟩ <;> dsimp only
    · exact Finset.sort_sorted_lt _
    · intro x
      simp [Finset.mem_sort, Finset.mem_sdiff]
    · exact Finset.sort_sorted_lt _
    · intro x
      simp [Finset.mem_sort, Finset.mem_sdiff]
  · intro db' hbatches hperm
    exact findMissingRecords_snd_congr batch_id hbatches hperm

/-- C1 witness: the theorem instantiated at the concrete store `exDB`. -/
theorem find_missing_records_sorted_set_difference_witness :
    (∃ res, (findMissingRecords exDB 1).2 = .ok res ∧
      List.Sorted (· < ·) res.missing_records ∧
      (∀ x : ℤ, x ∈ res.missing_records ↔
        x ∈ expectedIds exDB 1 ∧ x ∉ processedIds exDB 1) ∧
      List.Sorted (· < ·) res.unexpected_records ∧
      (∀ x : ℤ, x ∈ res.unexpected_records ↔
        x ∈ processedIds exDB 1 ∧ x ∉ expectedIds exDB 1)) ∧
    (∀ db' : DB, exDB.batches = db'.batches → exDB.records.Perm db'.records →
      (findMissingRecords exDB 1).2 = (findMissingRecords db' 1).2) :=
  find_missing_records_sorted_set_difference exDB 1 exBatch rfl

/-- C2: for every existing batch, the `processing_rate` returned by
`find_missing_records` is `100 × |expected_ids ∩ processed_ids| /
|expected_ids|` rounded to 2 decimal places when `|expected_ids| > 0`, and
exactly `0` when `|expected_ids| = 0` — in particular for a batch with no
records at all. -/
theorem find_missing_records_processing_rate (db : DB) (batch_id : ℤ)
    (b : Batch) (hb : getBatchById db batch_id = some b) :
    ∃ res, (findMissingRecords db batch_id).2 = .ok res ∧
      (0 < (expectedIds db batch_id).card →
        res.processing_rate =
          round2 (100 * ((expectedIds db batch_id ∩ processedIds db batch_id).card : ℚ) /
            ((expectedIds db batch_id).card : ℚ))) ∧
      ((expectedIds db batch_id).card = 0 → res.processing_rate = 0) ∧
      ((∀ r ∈ db.records, ¬ r.batch_id = batch_id) → res.processing_rate = 0) := by
  simp only [findMissingRecords, hb]
  have hzero : (expectedIds db batch_id).card = 0 →
      round2 (if 0 < (expectedIds db batch_id).card then
        (((expectedIds db batch_id ∩ processedIds db batch_id).card : ℚ) /
          ((expectedIds db batch_id).card : ℚ)) * 100
      else 0) = 0 := by
    intro h
    rw [if_neg (by omega)]
    simp [round2]
  refine ⟨_, rfl, ?_, ?_, ?_⟩ <;> dsimp only
  · intro h
    rw [if_pos h]
    exact congrArg round2 (by ring)
  · exact hzero
  · intro h
    refine hzero ?_
    have hfilter : db.records.filter
        (fun r => decide (r.batch_id = batch_id ∧ r.status = RecordStatus.expected)) = [] := by
      refine List.filter_eq_nil_iff.mpr ?_
      intro a ha
      simp only [decide_eq_true_eq, not_and]
      intro h1 _
      exact h a ha h1
    simp only [expectedIds, expectedIdRows, hfilter, List.map_nil, List.toFinset_nil,
      Finset.card_empty]

/-- C2 witness: the theorem instantiated at the concrete store `exDB`. -/
theorem find_missing_records_processing_rate_witness :
    ∃ res, (findMissingRecords exDB 1).2 = .ok res ∧
      (0 < (expectedIds exDB 1).card →
        res.processing_rate =
          round2 (100 * ((expectedIds exDB 1 ∩ processedIds exDB 1).card : ℚ) /
            ((expectedIds exDB 1).card : ℚ))) ∧
      ((expectedIds exDB 1).card = 0 → res.processing_rate = 0) ∧
      ((∀ r ∈ exDB.records, ¬ r.batch_id = 1) → res.processing_rate = 0) :=
  find_missing_records_processing_rate exDB 1 exBatch rfl

/-- C3: for a batch identifier with no matching batch, each of the three
analysis endpoints fails with the 404 not-found error (mapped from the
service `ValueError`, a constructor distinct from the 500
`ApiError.serverError`), and hence never returns a result. -/
theorem analysis_endpoints_not_found (db : DB) (batch_id : ℤ)
    (hb : getBatchById db batch_id = none) :
    (analyzeMissingRecordsEndpoint db batch_id).2 = .error (.notFound batch_id) ∧
    getProcessingStatusEndpoint db batch_id = .error (.notFound batch_id) ∧
    getBatchStatisticsEndpoint db batch_id = .error (.notFound batch_id) := by
  refine ⟨?_, ?_, ?_⟩
  · simp only [analyzeMissingRecordsEndpoint, findMissingRecords, hb]
  · simp only [getProcessingStatusEndpoint, getProcessingStatus, hb]
  · simp only [getBatchStatisticsEndpoint, getBatchStatistics, hb]

/-- C3 witness: batch id 2 does not exist in `exDB`. -/
theorem analysis_endpoints_not_found_witness :
    (analyzeMissingRecordsEndpoint exDB 2).2 = .error (.notFound 2) ∧
    getProcessingStatusEndpoint exDB 2 = .error (.notFound 2) ∧
    getBatchStatisticsEndpoint exDB 2 = .error (.notFound 2) :=
  analysis_endpoints_not_found exDB 2 rfl

lemma filter_map_toFinset_dup (l : List Record) (batch_id : ℤ) (st : RecordStatus)
    (r r' : Record) (hmem : r ∈ l) (hid : r'.record_id = r.record_id)
    (hbatch : r'.batch_id = r.batch_id) (hstatus : r'.status = r.status) :
    (((r' :: l).filter (fun x => decide (x.batch_id = batch_id ∧ x.status = st))).map
      Record.record_id).toFinset =
    ((l.filter (fun x => decide (x.batch_id = batch_id ∧ x.status = st))).map
      Record.record_id).toFinset := by
  rw [List.filter_cons]
  by_cases hc : r'.batch_id = batch_id ∧ r'.status = st
  · rw [if_pos (by simpa using hc), List.map_cons, List.toFinset_cons]
    refine Finset.insert_eq_self.mpr ?_
    rw [hid]
    refine List.mem_toFinset.mpr (List.mem_map.mpr ⟨r, List.mem_filter.mpr ⟨hmem, ?_⟩, rfl⟩)
    simp only [decide_eq_true_eq]
    exact ⟨hbatch.symm.trans hc.1, hstatus.symm.trans hc.2⟩
  · rw [if_neg (by simpa using hc)]

lemma expectedIds_dup (db : DB) (batch_id : ℤ) (r r' : Record)
    (hmem : r ∈ db.records) (hid : r'.record_id = r.record_id)
    (hbatch : r'.batch_id = r.batch_id) (hstatus : r'.status = r.status) :
    expectedIds ⟨db.batches, r' :: db.records⟩ batch_id = expectedIds db batch_id := by
  unfold expectedIds expectedIdRows
  exact filter_map_toFinset_dup db.records batch_id RecordStatus.expected r r'
    hmem hid hbatch hstatus

lemma processedIds_dup (db : DB) (batch_id : ℤ) (r r' : Record)
    (hmem : r ∈ db.records) (hid : r'.record_id = r.record_id)
    (hbatch : r'.batch_id = r.batch_id) (hstatus : r'.status = r.status) :
    processedIds ⟨db.batches, r' :: db.records⟩ batch_id = processedIds db batch_id := by
  unfold processedIds processedIdRows
  exact filter_map_toFinset_dup db.records batch_id RecordStatus.processed r r'
    hmem hid hbatch hstatus

/-- C4: set semantics, not bag semantics — adding a duplicate of a stored
record row (same domain `record_id`, same batch, same status, any primary
key) leaves the entire `find_missing_records` result unchanged: the
duplicate collapses into the status's identifier set before the
differences, intersection, counts and rate are computed. -/
theorem find_missing_records_duplicate_row_invariant (db : DB) (batch_id : ℤ)
    (r r' : Record) (hmem : r ∈ db.records) (hid : r'.record_id = r.record_id)
    (hbatch : r'.batch_id = r.batch_id) (hstatus : r'.status = r.status) :
    (findMissingRecords ⟨db.batches, r' :: db.records⟩ batch_id).2 =
      (findMissingRecords db batch_id).2 := by
  have hg : getBatchById ⟨db.batches, r' :: db.records⟩ batch_id =
      getBatchById db batch_id := rfl
  have hE := expectedIds_dup db batch_id r r' hmem hid hbatch hstatus
  have hP := processedIds_dup db batch_id r r' hmem hid hbatch hstatus
  cases hcase : getBatchById db batch_id <;>
    simp only [findMissingRecords, hg, hE, hP, hcase]

/-- C4 witness: duplicating the first record row of `exDB` (domain id 10,
batch 1, status expected) under primary key 99 leaves the reconciliation
result unchanged. -/
theorem find_missing_records_duplicate_row_invariant_witness :
    (findMissingRecords ⟨exDB.batches, exDupRecord :: exDB.records⟩ 1).2 =
      (findMissingRecords exDB 1).2 :=
  find_missing_records_duplicate_row_invariant exDB 1
    { id := 1, record_id := 10, batch_id := 1, status := RecordStatus.expected,
      record_metadata := none }
    exDupRecord (by decide) rfl rfl rfl

/-- C5: for every existing batch, the processing-status view returns the
batch's record-type classifier, the ascending-sorted listing of the
expected and processed record-id rows (a permutation of the raw rows, so
duplicates survive: a transparent listing, no set difference), and their
row counts. -/
theorem get_processing_status_transparent_listing (db : DB) (batch_id : ℤ)
    (b : Batch) (hb : getBatchById db batch_id = some b) :
    ∃ res, getProcessingStatus db batch_id = .ok res ∧
      res.record_type = b.record_type ∧
      List.Sorted (· ≤ ·) res.expected_records ∧
      res.expected_records.Perm (expectedIdRows db batch_id) ∧
      res.expected_count = (expectedIdRows db batch_id).length ∧
      List.Sorted (· ≤ ·) res.processed_records ∧
      res.processed_records.Perm (processedIdRows db batch_id) ∧
      res.processed_count = (processedIdRows db batch_id).length := by
  simp only [getProcessingStatus, hb]
  refine ⟨_, rfl, rfl, ?_, ?_, rfl, ?_, ?_, rfl⟩ <;> dsimp only
  · exact List.sorted_insertionSort _ _
  · exact List.perm_insertionSort _ _
  · exact List.sorted_insertionSort _ _
  · exact List.perm_insertionSort _ _

/-- C5 witness: the theorem instantiated at the concrete store `exDB`. -/
theorem get_processing_status_transparent_listing_witness :
    ∃ res, getProcessingStatus exDB 1 = .ok res ∧
      res.record_type = exBatch.record_type ∧
      List.Sorted (· ≤ ·) res.expected_records ∧
      res.expected_records.Perm (expectedIdRows exDB 1) ∧
      res.expected_count = (expectedIdRows exDB 1).length ∧
      List.Sorted (· ≤ ·) res.processed_records ∧
      res.processed_records.Perm (processedIdRows exDB 1) ∧
      res.processed_count = (processedIdRows exDB 1).length :=
  get_processing_status_transparent_listing exDB 1 exBatch rfl

/-- C6: for every existing batch, the statistics view's `total_records` is
the raw row count of the batch regardless of status (bag semantics) while
`missing_count` is the cardinality of the deduplicated set difference
`expected_ids − processed_ids` (set semantics); the row count can strictly
exceed `|expected_ids| + |processed_ids|` when duplicate domain ids exist
under one status. -/
theorem get_batch_statistics_bag_vs_set :
    (∀ (db : DB) (batch_id : ℤ) (b : Batch), getBatchById db batch_id = some b →
      ∃ s, getBatchStatistics db batch_id = .ok s ∧
        s.total_records =
          (db.records.filter (fun r => decide (r.batch_id = batch_id))).length ∧
        s.missing_count = (expectedIds db batch_id \ processedIds db batch_id).card) ∧
    (∃ (db : DB) (batch_id : ℤ) (s : BatchStatistics),
      getBatchStatistics db batch_id = .ok s ∧
      (expectedIds db batch_id).card + (processedIds db batch_id).card <
        s.total_records) := by
  constructor
  · intro db batch_id b hb
    simp only [getBatchStatistics, hb]
    exact ⟨_, rfl, rfl, rfl⟩
  · have hb : getBatchById exDB 1 = some exBatch := rfl
    refine ⟨exDB, 1, ?_⟩
    simp only [getBatchStatistics, hb]
    exact ⟨_, rfl, by decide⟩

/-- C6 witness: the first part of the theorem instantiated at `exDB`. -/
theorem get_batch_statistics_bag_vs_set_witness :
    ∃ s, getBatchStatistics exDB 1 = .ok s ∧
      s.total_records =
        (exDB.records.filter (fun r => decide (r.batch_id = 1))).length ∧
      s.missing_count = (expectedIds exDB 1 \ processedIds exDB 1).card :=
  get_batch_statistics_bag_vs_set.1 exDB 1 exBatch rfl

/-- C7: deleting an existing batch removes every record of that batch
(cascade) and a subsequent fetch of the batch id answers 404 not-found;
deleting a nonexistent batch id answers 404 and leaves the store
untouched. -/
theorem delete_batch_cascade_not_found :
    (∀ (db : DB) (batch_id : ℤ) (b : Batch), getBatchById db batch_id = some b →
      (∀ rec ∈ ((deleteBatchEndpoint db batch_id).1).records,
        ¬ rec.batch_id = batch_id) ∧
      getBatchEndpoint ((deleteBatchEndpoint db batch_id).1) batch_id =
        .error (.notFound batch_id)) ∧
    (∀ (db : DB) (batch_id : ℤ), getBatchById db batch_id = none →
      deleteBatchEndpoint db batch_id = (db, .error (.notFound batch_id))) := by
  constructor
  · intro db batch_id b hb
    simp only [deleteBatchEndpoint, deleteBatch, hb, if_true]
    constructor
    · intro rec hrec
      have hmem := (List.mem_filter.mp hrec).2
      simpa using hmem
    · have hnone : getBatchById
          ⟨db.batches.filter (fun x => decide (¬ x.id = batch_id)),
           db.records.filter (fun r => decide (¬ r.batch_id = batch_id))⟩ batch_id =
          none := by
        unfold getBatchById
        refine List.find?_eq_none.mpr ?_
        intro x hx
        have hmem := (List.mem_filter.mp hx).2
        simpa using hmem
      simp only [getBatchEndpoint, hnone]
  · intro db batch_id hb
    simp only [deleteBatchEndpoint, deleteBatch, hb, if_false, Bool.false_eq_true]

/-- C7 witness: the theorem instantiated at `exDB` with existing batch 1
and nonexistent batch 2. -/
theorem delete_batch_cascade_not_found_witness :
    ((∀ rec ∈ ((deleteBatchEndpoint exDB 1).1).records, ¬ rec.batch_id = 1) ∧
      getBatchEndpoint ((deleteBatchEndpoint exDB 1).1) 1 = .error (.notFound 1)) ∧
    deleteBatchEndpoint exDB 2 = (exDB, .error (.notFound 2)) :=
  ⟨delete_batch_cascade_not_found.1 exDB 1 exBatch rfl,
   delete_batch_cascade_not_found.2 exDB 2 rfl⟩

/-- C8: batch creation rejects a duplicate batch name with a 400 client
error and leaves the store unchanged; every record operation (create,
bulk-create, list, list-by-status, clear-all) verifies that the referenced
batch exists before acting and answers 404 not-found otherwise, leaving
the store unchanged. -/
theorem endpoints_validate_before_acting :
    (∀ (db : DB) (batch : BatchCreate) (b : Batch),
      getBatchByName db batch.batch_name = some b →
      ∃ msg, createBatchEndpoint db batch = (db, .error (.badRequest msg))) ∧
    (∀ (db : DB) (batch_id : ℤ) (record : RecordCreate),
      getBatchById db batch_id = none →
      createRecordEndpoint db batch_id record = (db, .error (.notFound batch_id))) ∧
    (∀ (db : DB) (bulk_data : RecordBulkUpload),
      getBatchById db bulk_data.batch_id = none →
      bulkUploadRecordsEndpoint db bulk_data =
        (db, .error (.notFound bulk_data.batch_id))) ∧
    (∀ (db : DB) (batch_id : ℤ), getBatchById db batch_id = none →
      getRecordsByBatchEndpoint db batch_id = .error (.notFound batch_id)) ∧
    (∀ (db : DB) (batch_id : ℤ) (status : RecordStatus),
      getBatchById db batch_id = none →
      getRecordsByStatusEndpoint db batch_id status = .error (.notFound batch_id)) ∧
    (∀ (db : DB) (batch_id : ℤ), getBatchById db batch_id = none →
      clearBatchRecordsEndpoint db batch_id = (db, .error (.notFound batch_id))) := by
  refine ⟨?_, ?_, ?_, ?_, ?_, ?_⟩
  · intro db batch b hname
    simp only [createBatchEndpoint, hname]
    exact ⟨_, rfl⟩
  · intro db batch_id record hb
    simp only [createRecordEndpoint, hb]
  · intro db bulk_data hb
    simp only [bulkUploadRecordsEndpoint, hb]
  · intro db batch_id hb
    simp only [getRecordsByBatchEndpoint, hb]
  · intro db batch_id status hb
    simp only [getRecordsByStatusEndpoint, hb]
  · intro db batch_id hb
    simp only [clearBatchRecordsEndpoint, hb]

/-- C8 witness: all six validations instantiated at `exDB` (duplicate name
alpha; nonexistent batch id 2). -/
theorem endpoints_validate_before_acting_witness :
    (∃ msg, createBatchEndpoint exDB
      { batch_name := "alpha", record_type := RecordType.order, description := none } =
      (exDB, .error (.badRequest msg))) ∧
    createRecordEndpoint exDB 2
      { record_id := 7, status := RecordStatus.expected, record_metadata := none } =
      (exDB, .error (.notFound 2)) ∧
    bulkUploadRecordsEndpoint exDB { batch_id := 2, records := [] } =
      (exDB, .error (.notFound 2)) ∧
    getRecordsByBatchEndpoint exDB 2 = .error (.notFound 2) ∧
    getRecordsByStatusEndpoint exDB 2 RecordStatus.processed = .error (.notFound 2) ∧
    clearBatchRecordsEndpoint exDB 2 = (exDB, .error (.notFound 2)) :=
  ⟨endpoints_validate_before_acting.1 exDB
      { batch_name := "alpha", record_type := RecordType.order, description := none }
      exBatch rfl,
   endpoints_validate_before_acting.2.1 exDB 2
      { record_id := 7, status := RecordStatus.expected, record_metadata := none } rfl,
   endpoints_validate_before_acting.2.2.1 exDB { batch_id := 2, records := [] } rfl,
   endpoints_validate_before_acting.2.2.2.1 exDB 2 rfl,
   endpoints_validate_before_acting.2.2.2.2.1 exDB 2 RecordStatus.processed rfl,
   endpoints_validate_before_acting.2.2.2.2.2 exDB 2 rfl⟩

/-- C9: the reconciliation operation has no side effects — for every store
and every batch identifier, on the success path and on the not-found path
alike, the store coming out of `find_missing_records` (and out of its
endpoint wrapper) is the store that went in. -/
theorem find_missing_records_no_side_effects (db : DB) (batch_id : ℤ) :
    (findMissingRecords db batch_id).1 = db ∧
    (analyzeMissingRecordsEndpoint db batch_id).1 = db := by
  cases hcase : getBatchById db batch_id <;>
    exact ⟨by simp only [findMissingRecords, hcase],
           by simp only [analyzeMissingRecordsEndpoint, findMissingRecords, hcase]⟩

/-- C10: in every reconciliation result, `total_expected` and
`total_processed` are the deduplicated set cardinalities, and
`missing_count` / `unexpected_count` equal the lengths of the returned
sequences; by contrast a batch with duplicate rows shows they differ from
the statistics view's row counts. -/
theorem find_missing_records_counts_deduplicated :
    (∀ (db : DB) (batch_id : ℤ) (b : Batch), getBatchById db batch_id = some b →
      ∃ res, (findMissingRecords db batch_id).2 = .ok res ∧
        res.total_expected = (expectedIds db batch_id).card ∧
        res.total_processed = (processedIds db batch_id).card ∧
        res.missing_count = res.missing_records.length ∧
        res.unexpected_count = res.unexpected_records.length) ∧
    (∃ (db : DB) (batch_id : ℤ) (res : MissingRecordsResult) (s : BatchStatistics),
      (findMissingRecords db batch_id).2 = .ok res ∧
      getBatchStatistics db batch_id = .ok s ∧
      ¬ res.total_expected = s.expected_count) := by
  constructor
  · intro db batch_id b hb
    simp only [findMissingRecords, hb]
    refine ⟨_, rfl, rfl, rfl, ?_, ?_⟩ <;> dsimp only
    · exact (Finset.length_sort _).symm
    · exact (Finset.length_sort _).symm
  · have hb : getBatchById exDB 1 = some exBatch := rfl
    refine ⟨exDB, 1, ?_⟩
    simp only [findMissingRecords, getBatchStatistics, hb]
    exact ⟨_, _, rfl, rfl, by decide⟩

/-- C10 witness: the first part of the theorem instantiated at `exDB`. -/
theorem find_missing_records_counts_deduplicated_witness :
    ∃ res, (findMissingRecords exDB 1).2 = .ok res ∧
      res.total_expected = (expectedIds exDB 1).card ∧
      res.total_processed = (processedIds exDB 1).card ∧
      res.missing_count = res.missing_records.length ∧
      res.unexpected_count = res.unexpected_records.length :=
  find_missing_records_counts_deduplicated.1 exDB 1 exBatch rfl
